import Mathlib

/-!
Verification of the rendering-capture-comparison pipeline in `src/app.py`.

The development shallowly embeds the program's components:

* `pixel_match`        — the SimilarityScorer (`app.py` lines 73-96);
* `capture_screenshot_from_file` — the ViewportRenderer (lines 46-71),
  with the effectful browser steps driven by an explicit environment;
* `process_google_sheet` / `processRow` — the BatchOrchestrator loop
  (lines 98-168), with network/browser outcomes supplied per row by an
  environment and the DataFrame modelled as a list of rows;
* `download_image` success/failure is the per-row boolean environment
  flag consumed where the source tests the function's return value.

Library calls are embedded at the mathematical level: `cv2.resize`
(default bilinear interpolation), `cv2.cvtColor BGR2GRAY` (the standard
luminance weights), and `skimage.metrics.structural_similarity` with its
default parameters (7x7 uniform windows, uint8 data range 255,
K1 = 0.01, K2 = 0.03, sample covariance normalisation 49/48, mean taken
over all fully contained windows).  Machine reals are modelled as `ℚ`;
`round(x, 2)` is Python's round-half-to-even at two decimals.
-/

namespace VisualReg

/-! ## Images -/

/-- A raster image as decoded by `cv2.imread`: height, width, and a pixel
grid of BGR channel triples (`cv2` loads images in BGR channel order).
Out-of-range coordinates are irrelevant: every consumer below reads only
in-range pixels. -/
structure Img where
  h : Nat
  w : Nat
  pix : Nat → Nat → Nat × Nat × Nat

/-- A single-channel (luminance) image, as produced by
`cv2.cvtColor(..., cv2.COLOR_BGR2GRAY)`. -/
structure GrayImg where
  h : Nat
  w : Nat
  pix : Nat → Nat → Nat

/-- Rounding to the nearest integer (ties upward), used for quantising
interpolated channel values back to integers. -/
def natRound (q : ℚ) : Nat := (Int.floor (q + 1/2)).toNat

/-- Clamp an integer coordinate into the valid index range `[0, n-1]`,
as `cv2.resize` does at image borders. -/
def clampIdx (i : ℤ) (n : Nat) : Nat := (min (max i 0) ((n : ℤ) - 1)).toNat

/-- The source coordinate sampled for destination index `dst` when
resampling an axis of length `srcN` to length `dstN`
(`cv2.resize` pixel-centre convention). -/
def srcCoord (dst srcN dstN : Nat) : ℚ :=
  ((dst : ℚ) + 1/2) * ((srcN : ℚ) / (dstN : ℚ)) - 1/2

/-- Bilinear interpolation of one channel from the four neighbouring
source pixels, with fractional weights `dy`, `dx`. -/
def interpChannel (dy dx : ℚ) (c00 c01 c10 c11 : Nat) : Nat :=
  natRound ((1 - dy) * (1 - dx) * (c00 : ℚ) + (1 - dy) * dx * (c01 : ℚ) +
            dy * (1 - dx) * (c10 : ℚ) + dy * dx * (c11 : ℚ))

/-- `cv2.resize(im, (newW, newH))` with the default bilinear
interpolation: each destination pixel bilinearly interpolates the four
source pixels around its back-projected centre, clamped at borders. -/
def cvResize (im : Img) (newW newH : Nat) : Img where
  h := newH
  w := newW
  pix := fun y x =>
    let fy := srcCoord y im.h newH
    let fx := srcCoord x im.w newW
    let y0 : ℤ := Int.floor fy
    let x0 : ℤ := Int.floor fx
    let dy : ℚ := fy - (y0 : ℚ)
    let dx : ℚ := fx - (x0 : ℚ)
    let p00 := im.pix (clampIdx y0 im.h) (clampIdx x0 im.w)
    let p01 := im.pix (clampIdx y0 im.h) (clampIdx (x0 + 1) im.w)
    let p10 := im.pix (clampIdx (y0 + 1) im.h) (clampIdx x0 im.w)
    let p11 := im.pix (clampIdx (y0 + 1) im.h) (clampIdx (x0 + 1) im.w)
    (interpChannel dy dx p00.1 p01.1 p10.1 p11.1,
     interpChannel dy dx p00.2.1 p01.2.1 p10.2.1 p11.2.1,
     interpChannel dy dx p00.2.2 p01.2.2 p10.2.2 p11.2.2)

/-- `cv2.cvtColor BGR2GRAY` luminance of one BGR pixel:
`Y = 0.299 R + 0.587 G + 0.114 B`, rounded to an integer. -/
def bgr2gray (p : Nat × Nat × Nat) : Nat :=
  natRound ((299 * (p.2.2 : ℚ) + 587 * (p.2.1 : ℚ) + 114 * (p.1 : ℚ)) / 1000)

/-- Convert a BGR image to single-channel luminance. -/
def grayscale (im : Img) : GrayImg where
  h := im.h
  w := im.w
  pix := fun y x => bgr2gray (im.pix y x)

/-! ## Structural similarity (skimage defaults) -/

/-- SSIM window side length (`win_size = 7`, the skimage default for
non-Gaussian weights). -/
def winSize : Nat := 7

/-- The index offsets of one 7x7 window. -/
def winPts : Finset (Nat × Nat) := Finset.range winSize ×ˢ Finset.range winSize

/-- Sum of the luminances over the window whose top-left corner is
`(i, j)`. -/
def winSum (g : GrayImg) (i j : Nat) : ℚ :=
  ∑ p ∈ winPts, (g.pix (i + p.1) (j + p.2) : ℚ)

/-- Sum of the products of the two images' luminances over the window at
`(i, j)`. -/
def winDot (g1 g2 : GrayImg) (i j : Nat) : ℚ :=
  ∑ p ∈ winPts, (g1.pix (i + p.1) (j + p.2) : ℚ) * (g2.pix (i + p.1) (j + p.2) : ℚ)

/-- Window mean (`ux` in skimage). -/
def uMean (g : GrayImg) (i j : Nat) : ℚ := winSum g i j / 49

/-- Window cross moment (`uxy` in skimage). -/
def crossMean (g1 g2 : GrayImg) (i j : Nat) : ℚ := winDot g1 g2 i j / 49

/-- Sample-covariance normalisation `NP/(NP-1)` with `NP = 49`
(skimage `use_sample_covariance=True` default). -/
def covNorm : ℚ := 49 / 48

/-- Window covariance (`vxy` in skimage; with both arguments equal, the
window variance `vx`). -/
def vxy (g1 g2 : GrayImg) (i j : Nat) : ℚ :=
  covNorm * (crossMean g1 g2 i j - uMean g1 i j * uMean g2 i j)

/-- `C1 = (K1 * L)^2 = (0.01 * 255)^2`. -/
def ssimC1 : ℚ := 2601 / 400

/-- `C2 = (K2 * L)^2 = (0.03 * 255)^2`. -/
def ssimC2 : ℚ := 23409 / 400

/-- The SSIM value of the single window at `(i, j)`. -/
def ssimWin (g1 g2 : GrayImg) (i j : Nat) : ℚ :=
  ((2 * uMean g1 i j * uMean g2 i j + ssimC1) * (2 * vxy g1 g2 i j + ssimC2)) /
  ((uMean g1 i j ^ 2 + uMean g2 i j ^ 2 + ssimC1) *
   (vxy g1 g1 i j + vxy g2 g2 i j + ssimC2))

/-- The mean SSIM over all fully contained windows (skimage computes the
full SSIM map and averages it after cropping the `(win_size-1)/2` border,
which is exactly the mean over all window origins).  Both images have the
same shape at every call site (the candidate is resized to the reference
first), so the window grid is taken from `g1`.  This is the total `ℚ`
mean formula only: on images smaller than the window it evaluates to 0 by
the `ℚ` convention `0 / 0 = 0`, but there `structural_similarity` raises
`ValueError` instead of producing a value — that error path is modelled
by `mssimChecked` below, and no theorem reads `mssim` outside the
library's domain. -/
def mssim (g1 g2 : GrayImg) : ℚ :=
  (∑ i ∈ Finset.range (g1.h - (winSize - 1)),
     ∑ j ∈ Finset.range (g1.w - (winSize - 1)), ssimWin g1 g2 i j) /
  (((g1.h - (winSize - 1)) * (g1.w - (winSize - 1)) : Nat) : ℚ)

/-- Python `round` (round half to even) to an integer. -/
def roundHalfEven (q : ℚ) : ℤ :=
  if q - (Int.floor q : ℚ) < 1/2 then Int.floor q
  else if q - (Int.floor q : ℚ) > 1/2 then Int.floor q + 1
  else if Even (Int.floor q) then Int.floor q else Int.floor q + 1

/-- Python `round(q, 2)`. -/
def rnd2 (q : ℚ) : ℚ := ((roundHalfEven (q * 100) : ℤ) : ℚ) / 100

/-- `pixel_match` (`app.py` lines 73-96).  The two arguments are the
results of `cv2.imread` on the reference and test paths: `none` models an
unreadable/missing file.  Mirrors the source: zero score when either
image fails to load; otherwise resize the test image to the reference
image's dimensions, convert both to grayscale, take the mean structural
similarity index, and report `round(index * 100, 2)`.  This function
gives the value the source returns on the domain where
`structural_similarity` does not raise (both loaded images end up at the
reference's dimensions, so that domain is: reference at least 7x7); the
library's error path for smaller references is made explicit in
`pixel_matchChecked` below. -/
def pixel_match (refImg testImg : Option Img) : ℚ :=
  match refImg with
  | none => 0
  | some ref =>
    match testImg with
    | none => 0
    | some t =>
      let resized := cvResize t ref.w ref.h
      let refGray := grayscale ref
      let testGray := grayscale resized
      rnd2 (mssim refGray testGray * 100)

/-- `structural_similarity` including its window-size validation: skimage
raises `ValueError` ("win_size exceeds image extent") when either side of
its inputs is smaller than the 7x7 window; `none` models that exception.
On the valid domain it is the windowed mean `mssim`.  (The two inputs
always have equal shape at the call site below, since the candidate was
resized to the reference first.) -/
def mssimChecked (g1 g2 : GrayImg) : Option ℚ :=
  if 7 ≤ g1.h ∧ 7 ≤ g1.w ∧ 7 ≤ g2.h ∧ 7 ≤ g2.w then some (mssim g1 g2) else none

/-- `pixel_match` with the SSIM library's error path made explicit:
`some q` means the call returns the score `q`; `none` means the
`ValueError` raised inside `ssim(ref_gray, test_gray, full=True)` escapes
`pixel_match` (in `process_google_sheet` the per-row `except` at line 156
then catches it).  The unreadable-image branches return `some 0` before
any SSIM call, exactly as in the source. -/
def pixel_matchChecked (refImg testImg : Option Img) : Option ℚ :=
  match refImg with
  | none => some 0
  | some ref =>
    match testImg with
    | none => some 0
    | some t =>
      (mssimChecked (grayscale ref) (grayscale (cvResize t ref.w ref.h))).map
        fun m => rnd2 (m * 100)

/-! ## ViewportRenderer (`capture_screenshot_from_file`, lines 46-71) -/

/-- A viewport profile, as passed in the `viewport_size` dictionary. -/
structure Viewport where
  width : Nat
  height : Nat
deriving DecidableEq

/-- The desktop profile used at line 146: `{'width': 1920, 'height': 1080}`. -/
def desktopViewport : Viewport := ⟨1920, 1080⟩

/-- The mobile profile used at line 147: `{'width': 420, 'height': 812}`. -/
def mobileViewport : Viewport := ⟨420, 812⟩

/-- Environment describing the outcome of each effectful browser step of
one renderer invocation:

* `driverOk`  — `webdriver.Chrome(...)` construction succeeds (this call
  sits before the `try` block, so its failure propagates to the caller);
* `loadOk`    — `driver.get(...)` succeeds;
* `scriptOk`  — the scrollbar-hiding and `scrollHeight` scripts succeed;
* `scrollHeight` — the measured `document.body.scrollHeight`;
* `resizeOk`  — `driver.set_window_size(...)` succeeds;
* `captureOk` — `driver.save_screenshot(...)` succeeds;
* `content`   — the rendered page's pixel grid. -/
structure RenderEnv where
  driverOk : Bool
  loadOk : Bool
  scriptOk : Bool
  scrollHeight : Nat
  resizeOk : Bool
  captureOk : Bool
  content : Nat → Nat → Nat × Nat × Nat

/-- The `try` block of `capture_screenshot_from_file`: the screenshot file
written, if every step succeeded.  Its dimensions are the viewport width
and the measured total page height (`driver.set_window_size(width,
total_height)` at line 63 — the profile height is only the provisional
window height and does not bound the capture).  Any step failure means no
file is written (the exception is caught and only logged). -/
def tryCapture (renv : RenderEnv) (vp : Viewport) : Option Img :=
  if renv.loadOk ∧ renv.scriptOk ∧ renv.resizeOk ∧ renv.captureOk then
    some { h := renv.scrollHeight, w := vp.width, pix := renv.content }
  else none

/-- Result of one renderer invocation.  `noDriver`: browser construction
itself threw (no instance acquired, the exception escapes to the caller).
`done artifact released`: the `try/except/finally` ran; `artifact` is the
screenshot file if one was written, and `released` records whether
`driver.quit()` ran. -/
inductive CaptureOutcome where
  | noDriver : CaptureOutcome
  | done (artifact : Option Img) (released : Bool) : CaptureOutcome

/-- `capture_screenshot_from_file` (lines 46-71): acquire the browser;
inside `try`, load, settle, hide scrollbars, measure, resize, capture;
`except` logs; `finally` always calls `driver.quit()`. -/
def capture_screenshot_from_file (renv : RenderEnv) (vp : Viewport) : CaptureOutcome :=
  if renv.driverOk then CaptureOutcome.done (tryCapture renv vp) true
  else CaptureOutcome.noDriver

/-- The scoped-acquisition contract: whenever a browser instance was
acquired, it was released. -/
def scopedRelease : CaptureOutcome → Prop
  | CaptureOutcome.noDriver => True
  | CaptureOutcome.done _ released => released = true

/-! ## BatchOrchestrator (`process_google_sheet`, lines 98-168) -/

/-- Python `str.strip()`: drop whitespace from both ends. -/
def pyStrip (s : String) : String :=
  ⟨((s.data.dropWhile Char.isWhitespace).reverse.dropWhile Char.isWhitespace).reverse⟩

/-- One row of the worksheet `DataFrame`: the four input columns read at
lines 114-117 (absent columns read as `""` via `row.get(..., '')`), and
the two match columns.  A match field is `none` when its cell is empty
(`None`). -/
structure SheetRow where
  html : String
  css : String
  desktopUrl : String
  mobileUrl : String
  desktopMatch : Option ℚ
  mobileMatch : Option ℚ
deriving DecidableEq

/-- Environment for one row's external effects:

* `desktopFetchOk`/`mobileFetchOk` — return value of `download_image`
  (lines 170-184: `True` iff HTTP 200 and no exception);
* `desktopRender`/`mobileRender` — browser step outcomes for the two
  renderer invocations;
* `desktopRef`/`mobileRef` — result of `cv2.imread` on the downloaded
  reference file (`none` if the bytes are not a decodable image);
* `raises` — an unexpected exception inside the row's `try` block after
  the captures and before the `DataFrame` updates (caught at line 156;
  for example skimage's `ValueError` when a downloaded reference image is
  smaller than the 7x7 SSIM window, the `none` case of
  `pixel_matchChecked`). -/
structure RowEnv where
  desktopFetchOk : Bool
  mobileFetchOk : Bool
  desktopRender : RenderEnv
  mobileRender : RenderEnv
  desktopRef : Option Img
  mobileRef : Option Img
  raises : Bool

/-- Observable side effects of processing one row, used to state that
skipped rows perform no network or rendering work. -/
inductive Event where
  | fetch (url : String) (ok : Bool) : Event
  | render (vp : Viewport) (produced : Bool) : Event
  | score (value : ℚ) : Event
deriving DecidableEq

/-- The desktop score computed at line 150:
`pixel_match(desktop_ref_image_path, desktop_screenshot)`; the screenshot
argument is the renderer's artifact (a failed render leaves no file, so
`cv2.imread` yields `none`). -/
def desktopScore (env : RowEnv) : ℚ :=
  pixel_match env.desktopRef (tryCapture env.desktopRender desktopViewport)

/-- The mobile score computed at line 151. -/
def mobileScore (env : RowEnv) : ℚ :=
  pixel_match env.mobileRef (tryCapture env.mobileRender mobileViewport)

/-- The body of the `for index, row in df.iterrows()` loop
(lines 113-157) for one row: validate (lines 114-124), materialise the
markup (line 127, assumed reliable), then inside `try`: download both
references (a failed download `continue`s out of the whole row), capture
both screenshots, score both pairs, and write both match cells; `except`
catches any exception and moves on, leaving the row unmodified.  Returns
the row's final state and the trace of external events. -/
def processRow (env : RowEnv) (r : SheetRow) : SheetRow × List Event :=
  if pyStrip r.html = "" ∨ pyStrip r.css = "" then (r, [])
  else if pyStrip r.desktopUrl = "" ∨ pyStrip r.mobileUrl = "" then (r, [])
  else
    let e1 := Event.fetch (pyStrip r.desktopUrl) env.desktopFetchOk
    if env.desktopFetchOk = false then (r, [e1])
    else
      let e2 := Event.fetch (pyStrip r.mobileUrl) env.mobileFetchOk
      if env.mobileFetchOk = false then (r, [e1, e2])
      else
        match capture_screenshot_from_file env.desktopRender desktopViewport with
        | CaptureOutcome.noDriver => (r, [e1, e2, Event.render desktopViewport false])
        | CaptureOutcome.done dShot _ =>
          let e3 := Event.render desktopViewport dShot.isSome
          match capture_screenshot_from_file env.mobileRender mobileViewport with
          | CaptureOutcome.noDriver => (r, [e1, e2, e3, Event.render mobileViewport false])
          | CaptureOutcome.done mShot _ =>
            let e4 := Event.render mobileViewport mShot.isSome
            if env.raises then (r, [e1, e2, e3, e4])
            else
              let dm := pixel_match env.desktopRef dShot
              let mm := pixel_match env.mobileRef mShot
              ({ r with desktopMatch := some dm, mobileMatch := some mm },
               [e1, e2, e3, e4, Event.score dm, Event.score mm])

/-- Whether a row runs all the way to the two `df.at` updates at lines
154-155: all four fields non-empty after stripping, both downloads
succeed, both browser constructions succeed, and no stray exception. -/
def reachesScoring (env : RowEnv) (r : SheetRow) : Bool :=
  (pyStrip r.html != "") && (pyStrip r.css != "") &&
  (pyStrip r.desktopUrl != "") && (pyStrip r.mobileUrl != "") &&
  env.desktopFetchOk && env.mobileFetchOk &&
  env.desktopRender.driverOk && env.mobileRender.driverOk && !env.raises

/-- The worksheet as read at lines 104-107: whether each match column
already exists, and the rows in sheet order. -/
structure Sheet where
  hasDesktopCol : Bool
  hasMobileCol : Bool
  rows : List SheetRow

/-- Lines 109-111: a missing match column is created filled with `None`;
an existing column keeps its values. -/
def initRow (s : Sheet) (r : SheetRow) : SheetRow :=
  { r with
    desktopMatch := if s.hasDesktopCol then r.desktopMatch else none
    mobileMatch := if s.hasMobileCol then r.mobileMatch else none }

/-- Column initialisation applied to every row. -/
def initCols (s : Sheet) : List SheetRow := s.rows.map (initRow s)

/-- The iteration of lines 113-157 over the remaining rows, carrying the
current row index. -/
def processRows (env : Nat → RowEnv) : Nat → List SheetRow → List SheetRow
  | _, [] => []
  | i, r :: rest => (processRow (env i) r).1 :: processRows env (i + 1) rest

/-- Environment for one whole run: per-row environments keyed by row
index, plus the outcomes of the two sinks (`worksheet.update` at line
161 and `df.to_excel` at line 167). -/
structure RunEnv where
  rowEnv : Nat → RowEnv
  sheetUpdateOk : Bool
  exportOk : Bool

/-- Result of one run: the final in-memory rows, whether the write-back
to the sheet succeeded (its failure is caught at line 163 and only
logged), whether the Excel export was written, and whether an exception
escaped `process_google_sheet` (only `df.to_excel` is outside any
`try`). -/
structure RunResult where
  finalRows : List SheetRow
  writtenBack : Bool
  exported : Bool
  raised : Bool

/-- `process_google_sheet` (lines 98-168): read the sheet, create any
missing match columns, run the per-row loop, then attempt the write-back
(failure caught and logged) and the export (failure propagates). -/
def process_google_sheet (env : RunEnv) (s : Sheet) : RunResult :=
  let final := processRows env.rowEnv 0 (initCols s)
  { finalRows := final
    writtenBack := env.sheetUpdateOk
    exported := env.exportOk
    raised := !env.exportOk }

/-- The input-column fields of a row, which the loop never modifies. -/
def inputFields (r : SheetRow) : String × String × String × String :=
  (r.html, r.css, r.desktopUrl, r.mobileUrl)

/-- The viewports of the render events of a trace, in order. -/
def renderEvents (t : List Event) : List Viewport :=
  t.filterMap fun e =>
    match e with
    | Event.render vp _ => some vp
    | _ => none

/-! ## Concrete fixtures -/

/-- An all-black pixel grid. -/
def zeroPix : Nat → Nat → Nat × Nat × Nat := fun _ _ => (0, 0, 0)

/-- A fully successful render whose measured page height is 100 pixels
(a short page: `document.body.scrollHeight` is the body's content
height and can be far below the profile height). -/
def renvOk : RenderEnv := ⟨true, true, true, 100, true, true, zeroPix⟩

/-- A render whose `driver.get` throws (the renderer catches it). -/
def renvLoadFail : RenderEnv := ⟨true, false, true, 100, true, true, zeroPix⟩

/-- The screenshot produced by `renvOk` at the desktop profile. -/
def img100 : Img := ⟨100, 1920, zeroPix⟩

/-- A 1x1 readable image. -/
def tinyImg : Img := ⟨1, 1, zeroPix⟩

/-- A 3x3 readable image — too small for the 7x7 SSIM window. -/
def img3 : Img := ⟨3, 3, zeroPix⟩

/-- A 7x7 readable image. -/
def img7 : Img := ⟨7, 7, zeroPix⟩

/-- A 10x10 readable image (stands in for a decoded reference). -/
def img10 : Img := ⟨10, 10, zeroPix⟩

/-- A row with all four input fields non-empty and fresh match cells. -/
def rowValid : SheetRow := ⟨"a", "b", "u", "v", none, none⟩

/-- A row with an empty style cell and pre-existing match values. -/
def rowEmptyCss : SheetRow := ⟨"a", "", "u", "v", some 55, some 66⟩

/-- A row environment in which everything succeeds. -/
def rowEnvOk : RowEnv := ⟨true, true, renvOk, renvOk, some img10, some img10, false⟩

/-- A row environment whose mobile reference download fails (HTTP error)
while the desktop download succeeds. -/
def rowEnvMobileFetchFail : RowEnv :=
  ⟨true, false, renvOk, renvOk, some img10, none, false⟩

/-- A row environment in which both downloads succeed but both renders
fail at `driver.get`. -/
def rowEnvRenderFail : RowEnv :=
  ⟨true, true, renvLoadFail, renvLoadFail, some img10, some img10, false⟩

/-- A one-row sheet that already contains both match columns, whose row
is skipped for an empty style cell. -/
def sheetPre : Sheet := ⟨true, true, [rowEmptyCss]⟩

/-- An empty sheet. -/
def sheetNil : Sheet := ⟨true, true, []⟩

/-- A run in which every row succeeds but the sheet write-back fails;
the export succeeds. -/
def runEnvSinkFail : RunEnv := ⟨fun _ => rowEnvOk, false, true⟩

/-- A run in which every external operation succeeds. -/
def runEnvAllOk : RunEnv := ⟨fun _ => rowEnvOk, true, true⟩

/-! ## Renderer lemmas -/

lemma capture_of_driverOk {renv : RenderEnv} (hd : renv.driverOk = true) (vp : Viewport) :
    capture_screenshot_from_file renv vp = CaptureOutcome.done (tryCapture renv vp) true := by
  simp [capture_screenshot_from_file, hd]

lemma tryCapture_dims {renv : RenderEnv} {vp : Viewport} {img : Img}
    (h : tryCapture renv vp = some img) : img.w = vp.width ∧ img.h = renv.scrollHeight := by
  unfold tryCapture at h
  split at h
  · cases h; exact ⟨rfl, rfl⟩
  · cases h

/-! ## Per-row characterisation lemmas -/

lemma processRow_skip_markup {env : RowEnv} {r : SheetRow}
    (h : pyStrip r.html = "" ∨ pyStrip r.css = "") : processRow env r = (r, []) := by
  unfold processRow
  rw [if_pos h]

lemma processRow_skip_url {env : RowEnv} {r : SheetRow}
    (h1 : ¬(pyStrip r.html = "" ∨ pyStrip r.css = ""))
    (h2 : pyStrip r.desktopUrl = "" ∨ pyStrip r.mobileUrl = "") :
    processRow env r = (r, []) := by
  unfold processRow
  rw [if_neg h1, if_pos h2]

lemma processRow_scored {env : RowEnv} {r : SheetRow}
    (h : reachesScoring env r = true) :
    processRow env r =
      ({ r with desktopMatch := some (desktopScore env),
                mobileMatch := some (mobileScore env) },
       [Event.fetch (pyStrip r.desktopUrl) true,
        Event.fetch (pyStrip r.mobileUrl) true,
        Event.render desktopViewport (tryCapture env.desktopRender desktopViewport).isSome,
        Event.render mobileViewport (tryCapture env.mobileRender mobileViewport).isSome,
        Event.score (desktopScore env), Event.score (mobileScore env)]) := by
  unfold reachesScoring at h
  simp only [Bool.and_eq_true, bne_iff_ne, ne_eq, Bool.not_eq_true'] at h
  obtain ⟨⟨⟨⟨⟨⟨⟨⟨hh, hc⟩, hd⟩, hm⟩, hdf⟩, hmf⟩, hddr⟩, hmdr⟩, hr⟩ := h
  unfold processRow
  rw [if_neg (by tauto), if_neg (by tauto), if_neg (by simp [hdf]),
    if_neg (by simp [hmf]), capture_of_driverOk hddr, capture_of_driverOk hmdr]
  simp only [hdf, hmf, hr, if_neg (by simp : ¬(false = true))]
  rfl

lemma processRow_not_scored {env : RowEnv} {r : SheetRow}
    (h : reachesScoring env r = false) : (processRow env r).1 = r := by
  by_cases hh : pyStrip r.html = "" ∨ pyStrip r.css = ""
  · rw [processRow_skip_markup hh]
  by_cases hu : pyStrip r.desktopUrl = "" ∨ pyStrip r.mobileUrl = ""
  · rw [processRow_skip_url hh hu]
  unfold processRow
  rw [if_neg hh, if_neg hu]
  cases hdf : env.desktopFetchOk
  · rfl
  · rw [if_neg (by simp)]
    cases hmf : env.mobileFetchOk
    · rfl
    · rw [if_neg (by simp)]
      cases hdd : env.desktopRender.driverOk
      · simp [capture_screenshot_from_file, hdd]
      · rw [capture_of_driverOk hdd]
        cases hmd : env.mobileRender.driverOk
        · simp [capture_screenshot_from_file, hmd]
        · rw [capture_of_driverOk hmd]
          cases hr : env.raises
          · exfalso
            push_neg at hh hu
            simp [reachesScoring, hh.1, hh.2, hu.1, hu.2, hdf, hmf, hdd, hmd, hr] at h
          · simp

lemma processRow_cases (env : RowEnv) (r : SheetRow) :
    (processRow env r).1 = r ∨
    (processRow env r).1 =
      { r with desktopMatch := some (desktopScore env),
               mobileMatch := some (mobileScore env) } := by
  cases h : reachesScoring env r
  · exact Or.inl (processRow_not_scored h)
  · exact Or.inr (by rw [processRow_scored h])

lemma processRow_inputFields (env : RowEnv) (r : SheetRow) :
    inputFields (processRow env r).1 = inputFields r := by
  rcases processRow_cases env r with h | h
  · rw [h]
  · rw [h]; rfl

lemma initRow_inputFields (s : Sheet) (r : SheetRow) :
    inputFields (initRow s r) = inputFields r := rfl

/-! ## Batch loop lemmas -/

lemma processRows_length (env : Nat → RowEnv) :
    ∀ (i : Nat) (l : List SheetRow), (processRows env i l).length = l.length := by
  intro i l
  induction l generalizing i with
  | nil => rfl
  | cons r rest ih => simp [processRows, ih]

lemma processRows_get? (env : Nat → RowEnv) :
    ∀ (l : List SheetRow) (i k : Nat),
      (processRows env i l).get? k = (l.get? k).map (fun r => (processRow (env (i + k)) r).1) := by
  intro l
  induction l with
  | nil => intro i k; rfl
  | cons r rest ih =>
    intro i k
    cases k with
    | zero => rfl
    | succ k =>
      show (processRows env (i + 1) rest).get? k = _
      rw [ih (i + 1) k]
      have h : i + 1 + k = i + (k + 1) := by omega
      rw [h]
      rfl

lemma initCols_get? (s : Sheet) (k : Nat) :
    (initCols s).get? k = (s.rows.get? k).map (initRow s) := by
  simp [initCols, List.get?_map]

lemma finalRows_get? (env : RunEnv) (s : Sheet) (k : Nat) :
    (process_google_sheet env s).finalRows.get? k =
      (s.rows.get? k).map (fun r => (processRow (env.rowEnv k) (initRow s r)).1) := by
  show (processRows env.rowEnv 0 (initCols s)).get? k = _
  rw [processRows_get? env.rowEnv (initCols s) 0 k, initCols_get? s k, Option.map_map]
  have h : 0 + k = k := by omega
  rw [h]
  rfl

/-! ## SSIM window statistics -/

lemma winPts_card : winPts.card = 49 := by
  simp [winPts, winSize]

lemma cs_win (f : Nat × Nat → ℚ) :
    (∑ p ∈ winPts, f p) ^ 2 ≤ 49 * ∑ p ∈ winPts, f p ^ 2 := by
  have h := sq_sum_le_card_mul_sum_sq (s := winPts) (f := f)
  rwa [winPts_card] at h

lemma winDot_self_eq (g : GrayImg) (i j : Nat) :
    winDot g g i j = ∑ p ∈ winPts, ((g.pix (i + p.1) (j + p.2) : ℚ)) ^ 2 := by
  unfold winDot
  exact Finset.sum_congr rfl fun p _ => (sq _).symm

lemma var_fact (g : GrayImg) (i j : Nat) :
    (winSum g i j) ^ 2 ≤ 49 * winDot g g i j := by
  rw [winDot_self_eq]
  exact cs_win _

lemma add_fact (g1 g2 : GrayImg) (i j : Nat) :
    (winSum g1 i j + winSum g2 i j) ^ 2 ≤
      49 * (winDot g1 g1 i j + 2 * winDot g1 g2 i j + winDot g2 g2 i j) := by
  have h := cs_win (fun p => (g1.pix (i + p.1) (j + p.2) : ℚ) + (g2.pix (i + p.1) (j + p.2) : ℚ))
  have e1 : (∑ p ∈ winPts,
      ((g1.pix (i + p.1) (j + p.2) : ℚ) + (g2.pix (i + p.1) (j + p.2) : ℚ))) =
      winSum g1 i j + winSum g2 i j := by
    unfold winSum
    rw [Finset.sum_add_distrib]
  have e2 : (∑ p ∈ winPts,
      ((g1.pix (i + p.1) (j + p.2) : ℚ) + (g2.pix (i + p.1) (j + p.2) : ℚ)) ^ 2) =
      winDot g1 g1 i j + 2 * winDot g1 g2 i j + winDot g2 g2 i j := by
    unfold winDot
    rw [Finset.mul_sum, ← Finset.sum_add_distrib, ← Finset.sum_add_distrib]
    exact Finset.sum_congr rfl fun p _ => by ring
  rw [e1, e2] at h
  exact h

lemma sub_fact (g1 g2 : GrayImg) (i j : Nat) :
    (winSum g1 i j - winSum g2 i j) ^ 2 ≤
      49 * (winDot g1 g1 i j - 2 * winDot g1 g2 i j + winDot g2 g2 i j) := by
  have h := cs_win (fun p => (g1.pix (i + p.1) (j + p.2) : ℚ) - (g2.pix (i + p.1) (j + p.2) : ℚ))
  have e1 : (∑ p ∈ winPts,
      ((g1.pix (i + p.1) (j + p.2) : ℚ) - (g2.pix (i + p.1) (j + p.2) : ℚ))) =
      winSum g1 i j - winSum g2 i j := by
    unfold winSum
    rw [Finset.sum_sub_distrib]
  have e2 : (∑ p ∈ winPts,
      ((g1.pix (i + p.1) (j + p.2) : ℚ) - (g2.pix (i + p.1) (j + p.2) : ℚ)) ^ 2) =
      winDot g1 g1 i j - 2 * winDot g1 g2 i j + winDot g2 g2 i j := by
    unfold winDot
    rw [Finset.mul_sum, ← Finset.sum_sub_distrib, ← Finset.sum_add_distrib]
    exact Finset.sum_congr rfl fun p _ => by ring
  rw [e1, e2] at h
  exact h

lemma vxy_eq (g1 g2 : GrayImg) (i j : Nat) :
    vxy g1 g2 i j = (49 * winDot g1 g2 i j - winSum g1 i j * winSum g2 i j) / 2352 := by
  unfold vxy covNorm crossMean uMean
  ring

lemma vxy_self_nonneg (g : GrayImg) (i j : Nat) : 0 ≤ vxy g g i j := by
  rw [vxy_eq]
  apply div_nonneg _ (by norm_num)
  have h := var_fact g i j
  linarith

lemma two_vxy_le (g1 g2 : GrayImg) (i j : Nat) :
    2 * vxy g1 g2 i j ≤ vxy g1 g1 i j + vxy g2 g2 i j := by
  have key : vxy g1 g1 i j + vxy g2 g2 i j - 2 * vxy g1 g2 i j =
      (49 * (winDot g1 g1 i j - 2 * winDot g1 g2 i j + winDot g2 g2 i j) -
        (winSum g1 i j - winSum g2 i j) ^ 2) / 2352 := by
    rw [vxy_eq, vxy_eq, vxy_eq]
    ring
  have h := sub_fact g1 g2 i j
  have : (0 : ℚ) ≤ vxy g1 g1 i j + vxy g2 g2 i j - 2 * vxy g1 g2 i j := by
    rw [key]
    apply div_nonneg _ (by norm_num)
    linarith
  linarith

lemma neg_two_vxy_le (g1 g2 : GrayImg) (i j : Nat) :
    -(2 * vxy g1 g2 i j) ≤ vxy g1 g1 i j + vxy g2 g2 i j := by
  have key : vxy g1 g1 i j + vxy g2 g2 i j + 2 * vxy g1 g2 i j =
      (49 * (winDot g1 g1 i j + 2 * winDot g1 g2 i j + winDot g2 g2 i j) -
        (winSum g1 i j + winSum g2 i j) ^ 2) / 2352 := by
    rw [vxy_eq, vxy_eq, vxy_eq]
    ring
  have h := add_fact g1 g2 i j
  have : (0 : ℚ) ≤ vxy g1 g1 i j + vxy g2 g2 i j + 2 * vxy g1 g2 i j := by
    rw [key]
    apply div_nonneg _ (by norm_num)
    linarith
  linarith

lemma winSum_nonneg (g : GrayImg) (i j : Nat) : 0 ≤ winSum g i j :=
  Finset.sum_nonneg fun p _ => Nat.cast_nonneg _

lemma uMean_nonneg (g : GrayImg) (i j : Nat) : 0 ≤ uMean g i j :=
  div_nonneg (winSum_nonneg g i j) (by norm_num)

lemma abs_frac_le_one {a b v1 v2 v12 : ℚ} (ha : 0 ≤ a) (hb : 0 ≤ b)
    (hv1 : 0 ≤ v1) (hv2 : 0 ≤ v2)
    (hup : 2 * v12 ≤ v1 + v2) (hlo : -(2 * v12) ≤ v1 + v2) :
    |((2 * a * b + ssimC1) * (2 * v12 + ssimC2)) /
      ((a ^ 2 + b ^ 2 + ssimC1) * (v1 + v2 + ssimC2))| ≤ 1 := by
  simp only [ssimC1, ssimC2]
  have hab : (0 : ℚ) ≤ 2 * a * b := by positivity
  have hA1pos : (0 : ℚ) < 2 * a * b + 2601 / 400 := by linarith
  have hB1pos : (0 : ℚ) < a ^ 2 + b ^ 2 + 2601 / 400 := by positivity
  have hA1le : 2 * a * b + 2601 / 400 ≤ a ^ 2 + b ^ 2 + 2601 / 400 := by
    nlinarith [sq_nonneg (a - b)]
  have hB2pos : (0 : ℚ) < v1 + v2 + 23409 / 400 := by linarith
  have hA2abs : |2 * v12 + 23409 / 400| ≤ v1 + v2 + 23409 / 400 := by
    rw [abs_le]
    constructor
    · linarith
    · linarith
  have hnum : |(2 * a * b + 2601 / 400) * (2 * v12 + 23409 / 400)| ≤
      (a ^ 2 + b ^ 2 + 2601 / 400) * (v1 + v2 + 23409 / 400) := by
    rw [abs_mul, abs_of_pos hA1pos]
    exact mul_le_mul hA1le hA2abs (abs_nonneg _) (le_of_lt hB1pos)
  rw [abs_div, abs_of_pos (mul_pos hB1pos hB2pos), div_le_one (mul_pos hB1pos hB2pos)]
  exact hnum

lemma abs_ssimWin_le_one (g1 g2 : GrayImg) (i j : Nat) : |ssimWin g1 g2 i j| ≤ 1 := by
  unfold ssimWin
  exact abs_frac_le_one (uMean_nonneg g1 i j) (uMean_nonneg g2 i j)
    (vxy_self_nonneg g1 i j) (vxy_self_nonneg g2 i j)
    (two_vxy_le g1 g2 i j) (neg_two_vxy_le g1 g2 i j)

lemma abs_mssim_le_one (g1 g2 : GrayImg) : |mssim g1 g2| ≤ 1 := by
  unfold mssim
  set R := g1.h - (winSize - 1) with hR
  set C := g1.w - (winSize - 1) with hC
  rcases Nat.eq_zero_or_pos (R * C) with h0 | hpos
  · rw [h0]
    rcases Nat.mul_eq_zero.mp h0 with hR0 | hC0
    · rw [hR0]
      simp
    · rw [hC0]
      simp
  · have hcast : (0 : ℚ) < ((R * C : Nat) : ℚ) := by
      exact_mod_cast hpos
    rw [abs_div, abs_of_pos hcast, div_le_one hcast]
    calc |∑ i ∈ Finset.range R, ∑ j ∈ Finset.range C, ssimWin g1 g2 i j|
        ≤ ∑ i ∈ Finset.range R, |∑ j ∈ Finset.range C, ssimWin g1 g2 i j| :=
          Finset.abs_sum_le_sum_abs _ _
      _ ≤ ∑ i ∈ Finset.range R, ∑ j ∈ Finset.range C, |ssimWin g1 g2 i j| :=
          Finset.sum_le_sum fun i _ => Finset.abs_sum_le_sum_abs _ _
      _ ≤ ∑ i ∈ Finset.range R, ∑ j ∈ Finset.range C, (1 : ℚ) :=
          Finset.sum_le_sum fun i _ => Finset.sum_le_sum fun j _ => abs_ssimWin_le_one g1 g2 i j
      _ = ((R * C : Nat) : ℚ) := by
          simp [mul_comm]

/-! ## Resizing to an image's own size is the identity on its pixels -/

lemma natRound_natCast (n : Nat) : natRound ((n : ℚ)) = n := by
  unfold natRound
  have h : Int.floor ((n : ℚ) + 1/2) = (n : ℤ) := by
    rw [Int.floor_eq_iff]
    constructor
    · push_cast
      linarith
    · push_cast
      linarith
  rw [h, Int.toNat_natCast]

lemma interpChannel_zero (a b c d : Nat) : interpChannel 0 0 a b c d = a := by
  unfold interpChannel
  rw [show ((1:ℚ) - 0) * (1 - 0) * (a : ℚ) + (1 - 0) * 0 * (b : ℚ) +
      0 * (1 - 0) * (c : ℚ) + 0 * 0 * (d : ℚ) = (a : ℚ) from by ring]
  exact natRound_natCast a

lemma srcCoord_same (d n : Nat) (hn : 0 < n) : srcCoord d n n = (d : ℚ) := by
  unfold srcCoord
  rw [div_self (by exact_mod_cast hn.ne' : ((n : ℚ)) ≠ 0)]
  ring

lemma clampIdx_of_lt (x n : Nat) (h : x < n) : clampIdx ((x : ℕ) : ℤ) n = x := by
  unfold clampIdx
  omega

lemma cvResize_same (im : Img) (y x : Nat) (hy : y < im.h) (hx : x < im.w) :
    (cvResize im im.w im.h).pix y x = im.pix y x := by
  have hh : 0 < im.h := by omega
  have hw : 0 < im.w := by omega
  show (let fy := srcCoord y im.h im.h
        let fx := srcCoord x im.w im.w
        let y0 : ℤ := Int.floor fy
        let x0 : ℤ := Int.floor fx
        let dy : ℚ := fy - (y0 : ℚ)
        let dx : ℚ := fx - (x0 : ℚ)
        let p00 := im.pix (clampIdx y0 im.h) (clampIdx x0 im.w)
        let p01 := im.pix (clampIdx y0 im.h) (clampIdx (x0 + 1) im.w)
        let p10 := im.pix (clampIdx (y0 + 1) im.h) (clampIdx x0 im.w)
        let p11 := im.pix (clampIdx (y0 + 1) im.h) (clampIdx (x0 + 1) im.w)
        (interpChannel dy dx p00.1 p01.1 p10.1 p11.1,
         interpChannel dy dx p00.2.1 p01.2.1 p10.2.1 p11.2.1,
         interpChannel dy dx p00.2.2 p01.2.2 p10.2.2 p11.2.2)) = im.pix y x
  simp only [srcCoord_same y im.h hh, srcCoord_same x im.w hw, Int.floor_natCast]
  rw [show ((y : ℚ) - ((y : ℤ) : ℚ)) = 0 from by push_cast; ring,
    show ((x : ℚ) - ((x : ℤ) : ℚ)) = 0 from by push_cast; ring]
  simp only [interpChannel_zero, clampIdx_of_lt y im.h hy, clampIdx_of_lt x im.w hx]

lemma grayscale_resize_agree (im : Img) (y x : Nat) (hy : y < im.h) (hx : x < im.w) :
    (grayscale (cvResize im im.w im.h)).pix y x = (grayscale im).pix y x := by
  show bgr2gray ((cvResize im im.w im.h).pix y x) = bgr2gray (im.pix y x)
  rw [cvResize_same im y x hy hx]

/-! ## Self-similarity is exactly 1 -/

lemma winStats_congr {g1 g2 : GrayImg} {i j : Nat}
    (hag : ∀ a b, a < winSize → b < winSize → g1.pix (i + a) (j + b) = g2.pix (i + a) (j + b)) :
    winSum g2 i j = winSum g1 i j ∧
    winDot g1 g2 i j = winDot g1 g1 i j ∧
    winDot g2 g2 i j = winDot g1 g1 i j := by
  have hmem : ∀ p ∈ winPts, g1.pix (i + p.1) (j + p.2) = g2.pix (i + p.1) (j + p.2) := by
    intro p hp
    rw [winPts, Finset.mem_product] at hp
    exact hag p.1 p.2 (Finset.mem_range.mp hp.1) (Finset.mem_range.mp hp.2)
  refine ⟨?_, ?_, ?_⟩
  · exact Finset.sum_congr rfl fun p hp => by rw [hmem p hp]
  · exact Finset.sum_congr rfl fun p hp => by rw [hmem p hp]
  · exact Finset.sum_congr rfl fun p hp => by rw [hmem p hp]

lemma ssimWin_self {g1 g2 : GrayImg} {i j : Nat}
    (hag : ∀ a b, a < winSize → b < winSize → g1.pix (i + a) (j + b) = g2.pix (i + a) (j + b)) :
    ssimWin g1 g2 i j = 1 := by
  obtain ⟨hS, hD12, hD22⟩ := winStats_congr hag
  have hu : uMean g2 i j = uMean g1 i j := by unfold uMean; rw [hS]
  have hv12 : vxy g1 g2 i j = vxy g1 g1 i j := by
    unfold vxy crossMean
    rw [hD12, hu]
  have hv22 : vxy g2 g2 i j = vxy g1 g1 i j := by
    unfold vxy crossMean
    rw [hD22, hu]
  have hvpos : (0 : ℚ) < 2 * vxy g1 g1 i j + ssimC2 := by
    have := vxy_self_nonneg g1 i j
    unfold ssimC2
    linarith
  have hupos : (0 : ℚ) < 2 * uMean g1 i j * uMean g1 i j + ssimC1 := by
    have h1 := uMean_nonneg g1 i j
    have : (0 : ℚ) ≤ 2 * uMean g1 i j * uMean g1 i j := by positivity
    unfold ssimC1
    linarith
  unfold ssimWin
  rw [hu, hv12, hv22]
  rw [show uMean g1 i j ^ 2 + uMean g1 i j ^ 2 + ssimC1 =
      2 * uMean g1 i j * uMean g1 i j + ssimC1 from by ring,
    show vxy g1 g1 i j + vxy g1 g1 i j + ssimC2 =
      2 * vxy g1 g1 i j + ssimC2 from by ring]
  exact div_self (by positivity)

lemma mssim_self {g1 g2 : GrayImg} (h7h : 7 ≤ g1.h) (h7w : 7 ≤ g1.w)
    (hag : ∀ y x, y < g1.h → x < g1.w → g1.pix y x = g2.pix y x) :
    mssim g1 g2 = 1 := by
  unfold mssim
  have hwin : ∀ i ∈ Finset.range (g1.h - (winSize - 1)),
      ∀ j ∈ Finset.range (g1.w - (winSize - 1)), ssimWin g1 g2 i j = 1 := by
    intro i hi j hj
    rw [Finset.mem_range] at hi hj
    apply ssimWin_self
    intro a b ha hb
    have hws : winSize = 7 := rfl
    rw [hws] at hi hj ha hb
    apply hag
    · omega
    · omega
  rw [Finset.sum_congr rfl fun i hi =>
    Finset.sum_congr rfl fun j hj => hwin i hi j hj]
  simp only [Finset.sum_const, Finset.card_range, nsmul_eq_mul, mul_one]
  rw [← Nat.cast_mul]
  apply div_self
  have hR : 0 < g1.h - (winSize - 1) := by unfold winSize; omega
  have hC : 0 < g1.w - (winSize - 1) := by unfold winSize; omega
  exact_mod_cast (Nat.mul_pos hR hC).ne'

/-! ## Rounding lemmas -/

lemma roundHalfEven_intCast (n : ℤ) : roundHalfEven ((n : ℤ) : ℚ) = n := by
  unfold roundHalfEven
  rw [Int.floor_intCast, sub_self]
  norm_num

lemma le_roundHalfEven {q : ℚ} {n : ℤ} (h : ((n : ℤ) : ℚ) ≤ q) : n ≤ roundHalfEven q := by
  have hf : n ≤ Int.floor q := Int.le_floor.mpr h
  unfold roundHalfEven
  split
  · exact hf
  · split
    · omega
    · split
      · exact hf
      · omega

lemma roundHalfEven_le {q : ℚ} {n : ℤ} (h : q ≤ ((n : ℤ) : ℚ)) : roundHalfEven q ≤ n := by
  have hf : Int.floor q ≤ n := by
    calc Int.floor q ≤ Int.floor ((n : ℤ) : ℚ) := Int.floor_le_floor h
    _ = n := Int.floor_intCast n
  unfold roundHalfEven
  split
  · exact hf
  · rename_i h1
    push_neg at h1
    have hlt : ((Int.floor q : ℤ) : ℚ) < q := by linarith
    have : Int.floor q < n := by
      by_contra hc
      push_neg at hc
      have : n = Int.floor q := le_antisymm hc hf
      rw [this] at h
      linarith
    split
    · omega
    · split
      · omega
      · omega

lemma rnd2_bounds {q : ℚ} (h1 : -100 ≤ q) (h2 : q ≤ 100) :
    -100 ≤ rnd2 q ∧ rnd2 q ≤ 100 := by
  unfold rnd2
  have hlo : ((-10000 : ℤ) : ℚ) ≤ q * 100 := by push_cast; linarith
  have hhi : q * 100 ≤ ((10000 : ℤ) : ℚ) := by push_cast; linarith
  have hrlo := le_roundHalfEven hlo
  have hrhi := roundHalfEven_le hhi
  constructor
  · rw [le_div_iff₀ (by norm_num : (0:ℚ) < 100)]
    calc (-100 : ℚ) * 100 = ((-10000 : ℤ) : ℚ) := by norm_num
    _ ≤ ((roundHalfEven (q * 100) : ℤ) : ℚ) := by exact_mod_cast hrlo
  · rw [div_le_iff₀ (by norm_num : (0:ℚ) < 100)]
    calc ((roundHalfEven (q * 100) : ℤ) : ℚ) ≤ ((10000 : ℤ) : ℚ) := by exact_mod_cast hrhi
    _ = (100 : ℚ) * 100 := by norm_num

/-! ## pixel_match facts -/

lemma pixel_match_none_left (t : Option Img) : pixel_match none t = 0 := rfl

lemma pixel_match_none_right (r : Option Img) : pixel_match r none = 0 := by
  cases r
  · rfl
  · rfl

lemma pixel_match_some (ref t : Img) :
    pixel_match (some ref) (some t) =
      rnd2 (mssim (grayscale ref) (grayscale (cvResize t ref.w ref.h)) * 100) := rfl

lemma pixel_match_bounds (ref t : Option Img) :
    -100 ≤ pixel_match ref t ∧ pixel_match ref t ≤ 100 := by
  cases ref with
  | none => rw [pixel_match_none_left]; norm_num
  | some r =>
    cases t with
    | none => rw [pixel_match_none_right]; norm_num
    | some t0 =>
      rw [pixel_match_some]
      have hm := abs_mssim_le_one (grayscale r) (grayscale (cvResize t0 r.w r.h))
      rw [abs_le] at hm
      exact rnd2_bounds (by linarith [hm.1]) (by linarith [hm.2])

lemma pixel_match_self {im : Img} (hh : 7 ≤ im.h) (hw : 7 ≤ im.w) :
    pixel_match (some im) (some im) = 100 := by
  rw [pixel_match_some]
  have hm : mssim (grayscale im) (grayscale (cvResize im im.w im.h)) = 1 := by
    apply mssim_self
    · exact hh
    · exact hw
    · intro y x hy hx
      exact (grayscale_resize_agree im y x hy hx).symm
  rw [hm]
  unfold rnd2
  rw [show ((1 : ℚ) * 100) * 100 = ((10000 : ℤ) : ℚ) from by norm_num,
    roundHalfEven_intCast]
  norm_num

lemma mssim_small {g1 : GrayImg} (g2 : GrayImg) (h : g1.h < 7) : mssim g1 g2 = 0 := by
  unfold mssim winSize
  rw [show g1.h - (7 - 1) = 0 from by omega]
  simp

lemma mssimChecked_of_le {g1 g2 : GrayImg} (h1 : 7 ≤ g1.h) (h2 : 7 ≤ g1.w)
    (h3 : 7 ≤ g2.h) (h4 : 7 ≤ g2.w) : mssimChecked g1 g2 = some (mssim g1 g2) :=
  if_pos ⟨h1, h2, h3, h4⟩

lemma mssimChecked_small {g1 g2 : GrayImg} (h : g1.h < 7 ∨ g1.w < 7) :
    mssimChecked g1 g2 = none := by
  unfold mssimChecked
  rw [if_neg]
  rintro ⟨ha, hb, _, _⟩
  rcases h with h | h
  · omega
  · omega

/-! ## Claims -/

/-- Claim C1 counterexample: a readable 3x3 reference against a readable
10x10 candidate.  The claim predicts the scorer returns
`round(index * 100, 2)`, but after the resize and grayscale both SSIM
inputs have the reference's 3x3 dimensions, smaller than the 7x7 window,
so `structural_similarity` raises `ValueError` and `pixel_match` returns
nothing at all. -/
theorem c1_small_reference_raises_cex :
    pixel_matchChecked (some img3) (some img10) = none ∧
    img3.h = 3 ∧ img3.w = 3 ∧ img10.h = 10 ∧ img10.w = 10 :=
  ⟨rfl, rfl, rfl, rfl, rfl⟩

/-- Claim C1 amended: the scorer returns a zero score, without throwing,
when either image is unreadable; for a readable pair whose reference is
at least 7x7 it resizes the candidate to exactly the reference image's
pixel dimensions (the reference is passed to the SSIM computation
unresized, so the comparison happens in the reference's coordinate
space), converts both to single-channel luminance, computes the windowed
mean structural similarity index of the pair, and returns
`round(index * 100, 2)` — agreeing with the total model `pixel_match` on
that domain; for a readable reference smaller than the 7x7 SSIM window in
either dimension the scorer raises from inside the SSIM library instead
of returning a score. -/
theorem c1_scorer_contract_amended :
    (∀ t : Option Img, pixel_matchChecked none t = some 0) ∧
    (∀ r : Option Img, pixel_matchChecked r none = some 0) ∧
    (∀ (ref t : Img), 7 ≤ ref.h → 7 ≤ ref.w →
       (cvResize t ref.w ref.h).w = ref.w ∧ (cvResize t ref.w ref.h).h = ref.h ∧
       (grayscale ref).w = ref.w ∧ (grayscale ref).h = ref.h ∧
       (grayscale (cvResize t ref.w ref.h)).w = ref.w ∧
       (grayscale (cvResize t ref.w ref.h)).h = ref.h ∧
       pixel_matchChecked (some ref) (some t) =
         some (rnd2 (mssim (grayscale ref) (grayscale (cvResize t ref.w ref.h)) * 100)) ∧
       pixel_matchChecked (some ref) (some t) = some (pixel_match (some ref) (some t))) ∧
    (∀ (ref t : Img), ref.h < 7 ∨ ref.w < 7 →
       pixel_matchChecked (some ref) (some t) = none) := by
  refine ⟨fun t => rfl, fun r => by cases r <;> rfl, fun ref t hh hw => ?_, fun ref t h => ?_⟩
  · have hch : mssimChecked (grayscale ref) (grayscale (cvResize t ref.w ref.h)) =
        some (mssim (grayscale ref) (grayscale (cvResize t ref.w ref.h))) :=
      mssimChecked_of_le hh hw hh hw
    refine ⟨rfl, rfl, rfl, rfl, rfl, rfl, ?_, ?_⟩
    · show (mssimChecked (grayscale ref) (grayscale (cvResize t ref.w ref.h))).map
        (fun m => rnd2 (m * 100)) = _
      rw [hch]
      rfl
    · show (mssimChecked (grayscale ref) (grayscale (cvResize t ref.w ref.h))).map
        (fun m => rnd2 (m * 100)) = _
      rw [hch]
      rfl
  · show (mssimChecked (grayscale ref) (grayscale (cvResize t ref.w ref.h))).map
      (fun m => rnd2 (m * 100)) = none
    rw [mssimChecked_small h]
    rfl

/-- Claim C1 amended, witnessed at a 10x10 reference (within the SSIM
window domain, agreeing with the total model) and at a 3x3 reference
against a 7x7 candidate (the raising slice). -/
theorem c1_scorer_contract_amended_witness :
    pixel_matchChecked (some img10) (some img100) =
      some (pixel_match (some img10) (some img100)) ∧
    pixel_matchChecked (some img3) (some img7) = none :=
  ⟨(c1_scorer_contract_amended.2.2.1 img10 img100 (by decide)
      (by decide)).2.2.2.2.2.2.2,
   c1_scorer_contract_amended.2.2.2 img3 img7 (Or.inl (by decide))⟩

/-- Claim C2 counterexample: in a row whose desktop reference downloads
successfully while the mobile download fails, the claim predicts a
desktop score; the code instead `continue`s out of the whole row at line
142, so the desktop viewport gets no score either — the row comes back
unchanged with only the two fetch attempts in its trace. -/
theorem c2_whole_case_skip_cex :
    rowEnvMobileFetchFail.desktopFetchOk = true ∧
    rowEnvMobileFetchFail.mobileFetchOk = false ∧
    processRow rowEnvMobileFetchFail rowValid =
      (rowValid, [Event.fetch "u" true, Event.fetch "v" false]) ∧
    rowValid.desktopMatch = none :=
  ⟨rfl, rfl, by decide, rfl⟩

/-- Claim C2 amended: a failure to fetch either reference image abandons the
whole test case, not just the affected viewport: the row's result record
is left unchanged (so both match fields stay absent on a fresh run, even
for the viewport whose reference fetched successfully), and no rendering
or scoring happens for that case. -/
theorem c2_fetch_abandons_case (env : RowEnv) (r : SheetRow)
    (hfail : env.desktopFetchOk = false ∨ env.mobileFetchOk = false) :
    (processRow env r).1 = r ∧
    (∀ vp ok, Event.render vp ok ∉ (processRow env r).2) ∧
    (∀ q, Event.score q ∉ (processRow env r).2) := by
  have htrace : processRow env r = (r, []) ∨
      processRow env r = (r, [Event.fetch (pyStrip r.desktopUrl) env.desktopFetchOk]) ∨
      processRow env r = (r, [Event.fetch (pyStrip r.desktopUrl) true,
                              Event.fetch (pyStrip r.mobileUrl) env.mobileFetchOk]) := by
    by_cases hh : pyStrip r.html = "" ∨ pyStrip r.css = ""
    · exact Or.inl (processRow_skip_markup hh)
    by_cases hu : pyStrip r.desktopUrl = "" ∨ pyStrip r.mobileUrl = ""
    · exact Or.inl (processRow_skip_url hh hu)
    cases hdf : env.desktopFetchOk
    · refine Or.inr (Or.inl ?_)
      unfold processRow
      rw [if_neg hh, if_neg hu, hdf, if_pos rfl]
    · rcases hfail with h | h
      · rw [hdf] at h
        cases h
      · refine Or.inr (Or.inr ?_)
        unfold processRow
        rw [if_neg hh, if_neg hu, hdf, h, if_neg (by simp), if_pos rfl]
  rcases htrace with h | h | h
  · rw [h]
    exact ⟨rfl, fun vp ok hm => by simp at hm, fun q hm => by simp at hm⟩
  · rw [h]
    exact ⟨rfl, fun vp ok hm => by simp at hm, fun q hm => by simp at hm⟩
  · rw [h]
    exact ⟨rfl, fun vp ok hm => by simp at hm, fun q hm => by simp at hm⟩

/-- Claim C2 amended, witnessed at a concrete row whose desktop fetch succeeds
and whose mobile fetch fails. -/
theorem c2_fetch_abandons_case_witness :
    (processRow rowEnvMobileFetchFail rowValid).1 = rowValid ∧
    (∀ vp ok, Event.render vp ok ∉ (processRow rowEnvMobileFetchFail rowValid).2) ∧
    (∀ q, Event.score q ∉ (processRow rowEnvMobileFetchFail rowValid).2) :=
  c2_fetch_abandons_case rowEnvMobileFetchFail rowValid (Or.inr rfl)

/-- Claim C3 counterexample: a row whose renders fail (`driver.get` throws)
still reaches the scorer, which reads the never-written screenshot file,
gets `None`, and returns `0.0` — so the recorded desktop match is the
numeric value `0`, not absent as the claim states. -/
theorem c3_render_zero_cex :
    rowEnvRenderFail.desktopRender.loadOk = false ∧
    tryCapture rowEnvRenderFail.desktopRender desktopViewport = none ∧
    (processRow rowEnvRenderFail rowValid).1.desktopMatch = some 0 :=
  ⟨rfl, rfl, by decide⟩

/-- Claim C3 amended: a (case, viewport) pair whose rendering fails produces no
artifact, and the pair's recorded match is the numeric score `0.0` (the
scorer zero-scores the missing screenshot), not an absent field; every
score the scorer returns lies in `[-100, 100]` (the structural similarity
index lies in `[-1, 1]`; the claimed lower bound 0 is not guaranteed for
anti-correlated images). -/
theorem c3_render_failure_zero_scored :
    (∀ (ref t : Option Img), -100 ≤ pixel_match ref t ∧ pixel_match ref t ≤ 100) ∧
    (∀ (env : RowEnv) (r : SheetRow), reachesScoring env r = true →
      (tryCapture env.desktopRender desktopViewport = none →
        (processRow env r).1.desktopMatch = some 0) ∧
      (tryCapture env.mobileRender mobileViewport = none →
        (processRow env r).1.mobileMatch = some 0) ∧
      (processRow env r).1.desktopMatch = some (desktopScore env) ∧
      (processRow env r).1.mobileMatch = some (mobileScore env)) := by
  refine ⟨pixel_match_bounds, fun env r h => ?_⟩
  rw [processRow_scored h]
  refine ⟨?_, ?_, rfl, rfl⟩
  · intro hc
    show some (desktopScore env) = some 0
    unfold desktopScore
    rw [hc, pixel_match_none_right]
  · intro hc
    show some (mobileScore env) = some 0
    unfold mobileScore
    rw [hc, pixel_match_none_right]

/-- Claim C3 amended, witnessed at a concrete row with failing renders. -/
theorem c3_render_failure_zero_scored_witness :
    (-100 ≤ pixel_match (some img10) none ∧ pixel_match (some img10) none ≤ 100) ∧
    (processRow rowEnvRenderFail rowValid).1.desktopMatch = some 0 :=
  ⟨c3_render_failure_zero_scored.1 (some img10) none,
   (c3_render_failure_zero_scored.2 rowEnvRenderFail rowValid (by decide)).1 rfl⟩

/-- Claim C4: the batch always produces exactly one result row per input row,
in input order — the final table has the input's length, entry `k` is a
function of input row `k` and row `k`'s environment alone (so a skipped
or failed case cannot perturb any other case), and every result row keeps
its input columns unchanged. -/
theorem c4_batch_shape (env : RunEnv) (s : Sheet) :
    (process_google_sheet env s).finalRows.length = s.rows.length ∧
    (∀ k, (process_google_sheet env s).finalRows.get? k =
      (s.rows.get? k).map (fun r => (processRow (env.rowEnv k) (initRow s r)).1)) ∧
    (∀ k, ((process_google_sheet env s).finalRows.get? k).map inputFields =
      (s.rows.get? k).map inputFields) := by
  refine ⟨?_, finalRows_get? env s, fun k => ?_⟩
  · show (processRows env.rowEnv 0 (initCols s)).length = _
    rw [processRows_length, initCols]
    exact List.length_map _ _
  · rw [finalRows_get? env s k, Option.map_map]
    cases hk : s.rows.get? k with
    | none => rfl
    | some r =>
      show some (inputFields ((processRow (env.rowEnv k) (initRow s r)).1)) = _
      rw [processRow_inputFields, initRow_inputFields]
      rfl

/-- Claim C5 counterexample: a row with an empty style cell in a sheet that
already contains the match columns with values: the claim predicts the
recorded result has both match fields absent, but the skipped row keeps
its pre-existing numeric values. -/
theorem c5_preexisting_value_cex :
    pyStrip rowEmptyCss.css = "" ∧
    (process_google_sheet runEnvAllOk sheetPre).finalRows = [rowEmptyCss] ∧
    rowEmptyCss.desktopMatch = some 55 ∧ rowEmptyCss.mobileMatch = some 66 :=
  ⟨rfl, by decide, rfl, rfl⟩

/-- Claim C5 amended: a case whose markup or style is empty after trimming, or
whose desktop or mobile reference locator is empty, is skipped before any
rendering or network work (its event trace is empty) and no score is
written for it: its match fields keep whatever values they had, which are
absent exactly when the match columns were freshly created for this
run. -/
theorem c5_validation_skip (env : RowEnv) (r : SheetRow)
    (h : pyStrip r.html = "" ∨ pyStrip r.css = "" ∨
         pyStrip r.desktopUrl = "" ∨ pyStrip r.mobileUrl = "") :
    processRow env r = (r, []) := by
  rcases h with h | h | h | h
  · exact processRow_skip_markup (Or.inl h)
  · exact processRow_skip_markup (Or.inr h)
  · by_cases hh : pyStrip r.html = "" ∨ pyStrip r.css = ""
    · exact processRow_skip_markup hh
    · exact processRow_skip_url hh (Or.inl h)
  · by_cases hh : pyStrip r.html = "" ∨ pyStrip r.css = ""
    · exact processRow_skip_markup hh
    · exact processRow_skip_url hh (Or.inr h)

/-- Claim C5 amended, witnessed at the concrete empty-style row. -/
theorem c5_validation_skip_witness :
    processRow rowEnvOk rowEmptyCss = (rowEmptyCss, []) :=
  c5_validation_skip rowEnvOk rowEmptyCss (Or.inr (Or.inl rfl))

/-- Claim C6 counterexample: the scorer is pure, but self-comparison does not
always yield 100.00: on a readable 1x1 image no 7x7 SSIM window fits, so
the comparison cannot produce the value 100 (the real library raises on
images smaller than its window; in this model the windowed mean over zero
windows is 0). -/
theorem c6_tiny_self_cex : pixel_match (some tinyImg) (some tinyImg) ≠ 100 := by
  rw [pixel_match_some, mssim_small _ (by decide)]
  unfold rnd2
  rw [show ((0 : ℚ) * 100) * 100 = ((0 : ℤ) : ℚ) from by norm_num, roundHalfEven_intCast]
  norm_num

/-- Claim C6 amended: the scorer is a pure, deterministic function of its two
image inputs, and for every readable image large enough to contain the
7x7 SSIM window, comparing it with an exact copy of itself yields exactly
100.00. -/
theorem c6_pure_scorer (a b : Option Img) (im : Img)
    (hh : 7 ≤ im.h) (hw : 7 ≤ im.w) :
    pixel_match a b = pixel_match a b ∧
    pixel_match (some im) (some im) = 100 :=
  ⟨rfl, pixel_match_self hh hw⟩

/-- Claim C6 amended, witnessed at a concrete 7x7 image. -/
theorem c6_pure_scorer_witness :
    pixel_match (some img7) (some img7) = pixel_match (some img7) (some img7) ∧
    pixel_match (some img7) (some img7) = 100 :=
  c6_pure_scorer (some img7) (some img7) img7 (by decide) (by decide)

/-- Claim C7: the renderer's scoped-acquisition contract — on every invocation,
if a browser instance was acquired then `driver.quit()` ran, whether the
`try` body succeeded or threw (the `finally` block); when construction
itself failed, no instance was acquired. -/
theorem c7_scoped_release (renv : RenderEnv) (vp : Viewport) :
    scopedRelease (capture_screenshot_from_file renv vp) := by
  unfold capture_screenshot_from_file
  split
  · exact rfl
  · exact trivial

/-- Claim C8 counterexample: a run whose sheet write-back fails while the
export succeeds: the claim predicts a fatal, distinctly surfaced failure,
but the code catches the write-back exception at line 163, only logs it,
and the run completes without raising (the caller reports success). -/
theorem c8_writeback_swallowed_cex :
    runEnvSinkFail.sheetUpdateOk = false ∧
    (process_google_sheet runEnvSinkFail sheetNil).writtenBack = false ∧
    (process_google_sheet runEnvSinkFail sheetNil).raised = false ∧
    (process_google_sheet runEnvSinkFail sheetNil).exported = true :=
  ⟨rfl, rfl, rfl, rfl⟩

/-- Claim C8 amended: of the two sinks, only the export is fatal — a
`df.to_excel` failure raises out of the orchestrator, while a
`worksheet.update` failure is caught and logged and the run carries on to
the export and completes; in either case the computed results exist in
memory, unaffected by the sink outcomes. -/
theorem c8_only_export_fatal (env : RunEnv) (s : Sheet) :
    (process_google_sheet env s).raised = !env.exportOk ∧
    (process_google_sheet env s).writtenBack = env.sheetUpdateOk ∧
    (env.sheetUpdateOk = false →
      (process_google_sheet env s).finalRows = processRows env.rowEnv 0 (initCols s) ∧
      (env.exportOk = true → (process_google_sheet env s).raised = false)) := by
  refine ⟨rfl, rfl, fun _ => ⟨rfl, fun he => ?_⟩⟩
  show (!env.exportOk) = false
  rw [he]
  rfl

/-- Claim C8 amended, witnessed at the concrete failing-write-back run. -/
theorem c8_only_export_fatal_witness :
    (process_google_sheet runEnvSinkFail sheetNil).finalRows =
      processRows runEnvSinkFail.rowEnv 0 (initCols sheetNil) ∧
    (process_google_sheet runEnvSinkFail sheetNil).raised = false :=
  ⟨(c8_only_export_fatal runEnvSinkFail sheetNil).2.2 rfl |>.1,
   (c8_only_export_fatal runEnvSinkFail sheetNil).2.2 rfl |>.2 rfl⟩

/-- Claim C9 counterexample: a successful capture at the desktop profile whose
measured page height is 100 pixels: the capture height is set to the
measured `document.body.scrollHeight` unconditionally, so it ends up
below the profile height 1080 — the height is not adjusted only
upward. -/
theorem c9_downward_resize_cex :
    tryCapture renvOk desktopViewport = some img100 ∧
    img100.h = 100 ∧ desktopViewport.height = 1080 ∧
    img100.h < desktopViewport.height :=
  ⟨rfl, rfl, rfl, by decide⟩

/-- Claim C9 amended: rendering happens at exactly the two fixed profiles,
desktop 1920x1080 then mobile 420x812; the captured artifact's width is
the profile width and its height is the measured full scrollable content
height of the page — which replaces the profile height whether it is
larger or smaller. -/
theorem c9_two_viewports (renv : RenderEnv) (vp : Viewport) (img : Img)
    (env : RowEnv) (r : SheetRow)
    (hcap : tryCapture renv vp = some img)
    (hsc : reachesScoring env r = true) :
    desktopViewport = ⟨1920, 1080⟩ ∧ mobileViewport = ⟨420, 812⟩ ∧
    (img.w = vp.width ∧ img.h = renv.scrollHeight) ∧
    renderEvents (processRow env r).2 = [desktopViewport, mobileViewport] := by
  refine ⟨rfl, rfl, tryCapture_dims hcap, ?_⟩
  rw [processRow_scored hsc]
  rfl

/-- Claim C9 amended, witnessed at a concrete capture and a concrete fully
successful row. -/
theorem c9_two_viewports_witness :
    desktopViewport = ⟨1920, 1080⟩ ∧ mobileViewport = ⟨420, 812⟩ ∧
    (img100.w = desktopViewport.width ∧ img100.h = renvOk.scrollHeight) ∧
    renderEvents (processRow rowEnvOk rowValid).2 = [desktopViewport, mobileViewport] :=
  c9_two_viewports renvOk desktopViewport img100 rowEnvOk rowValid rfl (by decide)

/-- Claim C10: when the input table already contains both match columns, a row
that does not reach the scoring stage passes through the whole run
unchanged — its pre-existing match values are carried into the final
(written-back and exported) table — while a row that reaches scoring has
exactly its two match fields overwritten; the fresh initialisation of a
match column to absent values happens only when that column is
missing. -/
theorem c10_carry_through :
    (∀ (env : RunEnv) (s : Sheet) (k : Nat) (r : SheetRow),
       s.hasDesktopCol = true → s.hasMobileCol = true →
       s.rows.get? k = some r →
       (reachesScoring (env.rowEnv k) r = false →
         (process_google_sheet env s).finalRows.get? k = some r) ∧
       (reachesScoring (env.rowEnv k) r = true →
         (process_google_sheet env s).finalRows.get? k =
           some { r with desktopMatch := some (desktopScore (env.rowEnv k)),
                         mobileMatch := some (mobileScore (env.rowEnv k)) })) ∧
    (∀ (s : Sheet) (r : SheetRow), s.hasDesktopCol = false →
       (initRow s r).desktopMatch = none) ∧
    (∀ (s : Sheet) (r : SheetRow), s.hasMobileCol = false →
       (initRow s r).mobileMatch = none) := by
  refine ⟨fun env s k r hd hm hget => ?_, fun s r h => by simp [initRow, h],
    fun s r h => by simp [initRow, h]⟩
  have hinit : initRow s r = r := by
    simp [initRow, hd, hm]
  constructor
  · intro hns
    rw [finalRows_get? env s k, hget, Option.map_some', hinit, processRow_not_scored hns]
  · intro hsc
    rw [finalRows_get? env s k, hget, Option.map_some', hinit, processRow_scored hsc]

/-- Claim C10, witnessed at the concrete pre-filled sheet whose single row is
skipped, and at a sheet missing both columns. -/
theorem c10_carry_through_witness :
    (process_google_sheet runEnvAllOk sheetPre).finalRows.get? 0 = some rowEmptyCss ∧
    (initRow ⟨false, false, []⟩ rowValid).desktopMatch = none :=
  ⟨(c10_carry_through.1 runEnvAllOk sheetPre 0 rowEmptyCss rfl rfl rfl).1 (by decide),
   c10_carry_through.2.1 ⟨false, false, []⟩ rowValid rfl⟩

end VisualReg

